import Mathlib

/-!
# Verification of `backend/db.js`

The module builds a MySQL connection pool from environment variables, runs a
one-shot connectivity check and exports the pool.

* Part 1 embeds the JavaScript of `backend/db.js`: the values read from
  `process.env`, the `||` operator, the object literal handed to
  `mysql.createPool`, and the promise chain
  `getConnection().then(...).catch(...)`.
* Part 2 models the connection pool manager that the specification describes
  (the pool itself lives in the `mysql2` package, outside this repository).
* Part 3 states and proves the properties.
-/

namespace DbJs

/-! ## Part 1: the module `backend/db.js` -/

/-- The JavaScript values that occur in the configuration: a property of
`process.env` is either `undefined` (variable not set) or a string. -/
inductive JSValue where
  | undefined
  | str (s : String)
  deriving DecidableEq, Repr

/-- JavaScript truthiness: `undefined` and the empty string are falsy, every
other string is truthy. -/
def JSValue.truthy : JSValue → Bool
  | .undefined => false
  | .str s => s != ""

/-- The JavaScript operator `a || b`: `a` when `a` is truthy, else `b`. -/
def JSValue.or (a b : JSValue) : JSValue :=
  if a.truthy then a else b

/-- The process environment: a variable is unset (`none`) or holds a string. -/
abbrev Env := String → Option String

/-- The expression `process.env.NAME`. -/
def Env.read (e : Env) (name : String) : JSValue :=
  match e name with
  | none => .undefined
  | some s => .str s

/-- The environment with variable `name` set to `v` (or unset for `none`). -/
def Env.update (e : Env) (name : String) (v : Option String) : Env :=
  fun k => if k = name then v else e k

/-- The object literal passed to `mysql.createPool` (db.js lines 5-13). -/
structure PoolOptions where
  host : JSValue
  user : JSValue
  password : JSValue
  database : JSValue
  waitForConnections : Bool
  connectionLimit : Nat
  queueLimit : Nat
  deriving DecidableEq, Repr

/-- The argument of `mysql.createPool`, evaluated in environment `e`:
```
host: process.env.DB_HOST || "localhost",
user: process.env.DB_USER || "root",
password: process.env.DB_PASSWORD,
database: process.env.DB_NAME || "academia_final",
waitForConnections: true,
connectionLimit: 10,
queueLimit: 0,
``` -/
def poolOptions (e : Env) : PoolOptions :=
  { host := (e.read "DB_HOST").or (.str "localhost")
    user := (e.read "DB_USER").or (.str "root")
    password := e.read "DB_PASSWORD"
    database := (e.read "DB_NAME").or (.str "academia_final")
    waitForConnections := true
    connectionLimit := 10
    queueLimit := 0 }

/-- The state of a promise once the event loop has run: it may stay pending,
be fulfilled with a value or be rejected with an error. -/
inductive PromiseState (α ε : Type) where
  | pending
  | fulfilled (v : α)
  | rejected (err : ε)
  deriving DecidableEq, Repr

/-- The calls the module makes that are visible from outside, in order:
`connection.getConnection()`, `console.log(msg)`, `console.error(msg, err)`
and `conn.release()`. -/
inductive Event (κ ε : Type) where
  | getConnection
  | log (msg : String)
  | error (msg : String) (err : ε)
  | release (conn : κ)
  deriving DecidableEq, Repr

/-- Running a piece of JavaScript: the calls it made and how it completed,
normally with a value or by throwing. -/
structure Run (κ ε α : Type) where
  events : List (Event κ ε)
  result : Except ε α

/-- Sequencing of two statements: the second runs only when the first returns
normally. -/
def Run.andThen {κ ε α β : Type} (r : Run κ ε α) (k : α → Run κ ε β) : Run κ ε β :=
  match r.result with
  | .error err => { events := r.events, result := .error err }
  | .ok a => { events := r.events ++ (k a).events, result := (k a).result }

/-- The call `console.log(msg)`; it returns normally. -/
def consoleLog {κ ε : Type} (msg : String) : Run κ ε Unit :=
  { events := [.log msg], result := .ok () }

/-- The call `console.error(msg, err)`; it returns normally. -/
def consoleError {κ ε : Type} (msg : String) (err : ε) : Run κ ε Unit :=
  { events := [.error msg err], result := .ok () }

/-- The call `conn.release()`. Whether it returns or throws is decided by the
driver, given here as `release`. -/
def callRelease {κ ε : Type} (release : κ → Except ε Unit) (conn : κ) : Run κ ε Unit :=
  { events := [.release conn], result := release conn }

/-- A promise in a chain, with the calls made by the handlers that already ran. -/
structure Chain (κ ε α : Type) where
  events : List (Event κ ε)
  state : PromiseState α ε

/-- The settlement of a promise by the completion of a handler. -/
def settle {α ε : Type} : Except ε α → PromiseState α ε
  | .ok a => .fulfilled a
  | .error err => .rejected err

/-- The method `p.then(f)`: `f` runs when `p` is fulfilled, and the new promise
settles as `f` completes; a rejection passes through; a pending promise stays
pending. -/
def Chain.thenDo {κ ε α β : Type} (p : Chain κ ε α) (f : α → Run κ ε β) : Chain κ ε β :=
  match p.state with
  | .pending => { events := p.events, state := .pending }
  | .rejected err => { events := p.events, state := .rejected err }
  | .fulfilled v => { events := p.events ++ (f v).events, state := settle (f v).result }

/-- The method `p.catch(h)`: `h` runs when `p` is rejected, and the new promise
settles as `h` completes; a fulfilment passes through. -/
def Chain.catchDo {κ ε α : Type} (p : Chain κ ε α) (h : ε → Run κ ε α) : Chain κ ε α :=
  match p.state with
  | .pending => { events := p.events, state := .pending }
  | .fulfilled v => { events := p.events, state := .fulfilled v }
  | .rejected err => { events := p.events ++ (h err).events, state := settle (h err).result }

/-- The handler given to `.then` (db.js lines 18-21):
```
(conn) => { console.log("Connected to the MySQL database."); conn.release(); }
``` -/
def onConnected {κ ε : Type} (release : κ → Except ε Unit) (conn : κ) : Run κ ε Unit :=
  (consoleLog "Connected to the MySQL database.").andThen fun _ => callRelease release conn

/-- The handler given to `.catch` (db.js lines 22-24):
```
(err) => { console.error("Error connecting to the database:", err); }
``` -/
def onError {κ ε : Type} (err : ε) : Run κ ε Unit :=
  consoleError "Error connecting to the database:" err

/-- The connectivity check (db.js lines 16-24):
`connection.getConnection().then(onConnected).catch(onError)`.
`outcome` is how the promise returned by `getConnection()` settles. -/
def startupCheck {κ ε : Type} (outcome : PromiseState κ ε) (release : κ → Except ε Unit) :
    Chain κ ε Unit :=
  (({ events := [.getConnection], state := outcome } : Chain κ ε κ).thenDo
    (onConnected release)).catchDo onError

/-- What loading the module leaves behind: the value of `module.exports`, the
calls made, and the final state of the promise chain. -/
structure Loaded (P κ ε : Type) where
  exports : P
  events : List (Event κ ε)
  chain : PromiseState Unit ε

/-- Loading `backend/db.js`. `dotenv` is the effect of `require("dotenv").config()`
on `process.env`, `createPool` is `mysql.createPool`, `outcome` is how the promise
of `getConnection()` settles and `release` is how `conn.release()` completes. -/
def loadModule {P κ ε : Type} (dotenv : Env → Env) (createPool : PoolOptions → P)
    (outcome : PromiseState κ ε) (release : κ → Except ε Unit) (processEnv : Env) :
    Loaded P κ ε :=
  let connection := createPool (poolOptions (dotenv processEnv))
  let check := startupCheck outcome release
  { exports := connection, events := check.events, chain := check.state }

/-- The connections on which `release` was called, in order. -/
def releasedConns {κ ε : Type} : List (Event κ ε) → List κ
  | [] => []
  | .release c :: rest => c :: releasedConns rest
  | _ :: rest => releasedConns rest

/-- The messages written with `console.log`, in order. -/
def loggedMessages {κ ε : Type} : List (Event κ ε) → List String
  | [] => []
  | .log m :: rest => m :: loggedMessages rest
  | _ :: rest => loggedMessages rest

/-- The messages written with `console.error`, each with its error, in order. -/
def loggedErrors {κ ε : Type} : List (Event κ ε) → List (String × ε)
  | [] => []
  | .error m err :: rest => (m, err) :: loggedErrors rest
  | _ :: rest => loggedErrors rest

/-- The number of calls of `getConnection`. -/
def getConnectionCalls {κ ε : Type} : List (Event κ ε) → Nat
  | [] => 0
  | .getConnection :: rest => getConnectionCalls rest + 1
  | _ :: rest => getConnectionCalls rest

/-! ## Part 2: the connection pool manager of the specification

`mysql.createPool` comes from the `mysql2` package. The specification describes
the pool it stands for (sections 3 and 4.1); the definitions below follow that
description. Connections and waiters are named by natural numbers. -/

/-- Modelled from the spec: the error kinds of section 7 (the pool manager
itself is the `mysql2` package, absent from the sources). -/
inductive PoolError where
  | poolExhausted
  | connectFailed
  | poolClosed
  | invalidHandle
  deriving DecidableEq, Repr

/-- Modelled from the spec: the two numeric limits of `PoolConfig` (section 3),
"max connections (positive integer), max queued waiters (0 = unbounded)". The
other fields (host, port, credentials, database name) play no part in `acquire`
and `release`. -/
structure PoolConfig where
  maxConnections : Nat
  maxQueuedWaiters : Nat
  deriving DecidableEq, Repr

/-- The limits that the options of `db.js` give to the pool: `connectionLimit`
is the maximum number of connections and `queueLimit` the maximum number of
queued waiters. -/
def PoolConfig.ofOptions (o : PoolOptions) : PoolConfig :=
  { maxConnections := o.connectionLimit, maxQueuedWaiters := o.queueLimit }

/-- Modelled from the spec: the `Pool` of section 3 (absent from the sources),
"a collection of Connections partitioned into idle and in-use sets, plus a
waiter queue of pending acquisition requests", with the closed flag of
`shutdown` and the count of connections created so far, which names the next
new connection. -/
structure Pool where
  idle : List Nat
  inUse : List Nat
  waiters : List Nat
  closed : Bool
  created : Nat
  deriving DecidableEq, Repr

/-- Modelled from the spec: "Pool is created once at process start with a
PoolConfig; Connections are created lazily up to the max on demand" (section 3;
`db.js` asks for no warm-up). -/
def Pool.create : Pool :=
  { idle := [], inUse := [], waiters := [], closed := false, created := 0 }

/-- Modelled from the spec: what `acquire` gives its caller (section 4.1): a
connection handle, a place in the waiter queue, or an error. -/
inductive Acquired where
  | conn (c : Nat)
  | queued
  | failed (err : PoolError)
  deriving DecidableEq, Repr

/-- Modelled from the spec: `healthCheck` at acquire time (section 4.1): idle
connections are pulled in order and probed; one that fails the probe is
discarded, the first that passes is taken. The result is the connection taken
and the idle connections left, or `none` when no idle connection is valid. -/
def Pool.takeIdle (probe : Nat → Bool) : List Nat → Option (Nat × List Nat)
  | [] => none
  | c :: rest => if probe c then some (c, rest) else Pool.takeIdle probe rest

/-- Modelled from the spec: `acquire` of section 4.1 (absent from the sources),
for the caller `w`, with the answers of the collaborators as inputs: `probe` for
the liveness probe and `connectOk` for the connect attempt.
* after shutdown it fails with `PoolClosed`;
* "If an idle, valid connection exists, it is removed from idle, marked in-use,
  and returned immediately";
* "Else if `|idle| + |in-use| < max`, a new connection is established and
  returned on success; on failure the attempt does not count against the pool";
* "Else the caller is enqueued as a waiter (FIFO order) up to max queued
  waiters; if the queue is full, fails immediately with `PoolExhausted`", where
  a limit of 0 means unbounded. -/
def Pool.acquire (cfg : PoolConfig) (p : Pool) (w : Nat) (probe : Nat → Bool)
    (connectOk : Bool) : Acquired × Pool :=
  if p.closed then (.failed .poolClosed, p)
  else
    match Pool.takeIdle probe p.idle with
    | some (c, rest) => (.conn c, { p with idle := rest, inUse := c :: p.inUse })
    | none =>
      let q : Pool := { p with idle := [] }
      if q.idle.length + q.inUse.length < cfg.maxConnections then
        if connectOk then
          (.conn q.created, { q with inUse := q.created :: q.inUse, created := q.created + 1 })
        else (.failed .connectFailed, q)
      else if cfg.maxQueuedWaiters = 0 ∨ q.waiters.length < cfg.maxQueuedWaiters then
        (.queued, { q with waiters := q.waiters ++ [w] })
      else (.failed .poolExhausted, q)

/-- Modelled from the spec: `release` of section 4.1 (absent from the sources).
`valid` is the validity flag of the connection; `probeOk` and `connectOk` are the
answers the oldest waiter gets when it is woken.
* "Fails with `InvalidHandle` if called twice on the same handle or with a
  handle not owned by this pool";
* after shutdown the connection is closed upon return;
* "If waiters exist, the freed capacity or connection is handed to the oldest
  waiter before being placed in idle"; the waiter re-validates the connection,
  and connects anew when it gets capacity only;
* otherwise the pool "returns the connection to idle, or closes and discards it
  if its validity flag is false". -/
def Pool.release (p : Pool) (c : Nat) (valid probeOk connectOk : Bool) :
    Except PoolError Unit × Pool :=
  if c ∈ p.inUse then
    let rest := p.inUse.erase c
    if p.closed then (.ok (), { p with inUse := rest })
    else
      match p.waiters with
      | [] =>
        if valid then (.ok (), { p with inUse := rest, idle := p.idle ++ [c] })
        else (.ok (), { p with inUse := rest })
      | _ :: ws =>
        if valid && probeOk then (.ok (), { p with inUse := c :: rest, waiters := ws })
        else if connectOk then
          (.ok (), { p with inUse := p.created :: rest, waiters := ws, created := p.created + 1 })
        else (.ok (), { p with inUse := rest, waiters := ws })
  else (.error .invalidHandle, p)

/-- Modelled from the spec: the expiry of the timeout of a queued `acquire`
(section 4.1): "on expiry the waiter is removed from the queue". -/
def Pool.expire (p : Pool) (w : Nat) : Pool :=
  { p with waiters := p.waiters.erase w }

/-- Modelled from the spec: `shutdown` of section 4.1: the pool stops accepting
`acquire`, fails the queued waiters and closes the idle connections. -/
def Pool.shutdown (p : Pool) : Pool :=
  { p with closed := true, idle := [], waiters := [] }

/-- An operation on the pool together with the answers of its collaborators. -/
inductive PoolOp where
  | acquire (w : Nat) (probe : Nat → Bool) (connectOk : Bool)
  | release (c : Nat) (valid probeOk connectOk : Bool)
  | expire (w : Nat)
  | shutdown

/-- The pool after one operation. -/
def Pool.step (cfg : PoolConfig) (p : Pool) : PoolOp → Pool
  | .acquire w probe connectOk => (p.acquire cfg w probe connectOk).2
  | .release c valid probeOk connectOk => (p.release c valid probeOk connectOk).2
  | .expire w => p.expire w
  | .shutdown => p.shutdown

/-- The pool after a sequence of operations. -/
def Pool.run (cfg : PoolConfig) (p : Pool) (ops : List PoolOp) : Pool :=
  ops.foldl (Pool.step cfg) p

/-- How the promise of `getConnection()` settles for a result of `acquire`: a
queued caller keeps waiting. -/
def Acquired.toPromise : Acquired → PromiseState Nat PoolError
  | .conn c => .fulfilled c
  | .queued => .pending
  | .failed err => .rejected err

/-- The pool after the startup check of `db.js` ran against it: `getConnection`
is an `acquire`, and every `release` call of the check is a `release` on the
pool. -/
def Pool.afterStartupCheck (cfg : PoolConfig) (p : Pool) (w : Nat) (probe : Nat → Bool)
    (connectOk valid probeOk connectOk2 : Bool) : Pool :=
  let a := p.acquire cfg w probe connectOk
  let check := startupCheck a.1.toPromise
    (fun c => (a.2.release c valid probeOk connectOk2).1)
  (releasedConns check.events).foldl
    (fun q c => (q.release c valid probeOk connectOk2).2) a.2

/-! ### Sample inputs -/

/-- An environment in which no variable is set. -/
def emptyEnv : Env := fun _ => none

/-- An environment that sets the four variables read by `db.js`. -/
def sampleEnv : Env := fun k =>
  if k = "DB_HOST" then some "db.internal"
  else if k = "DB_USER" then some "app"
  else if k = "DB_PASSWORD" then some "s3cret"
  else if k = "DB_NAME" then some "academia"
  else none

/-- A pool with ten connections in use, none idle and two callers queued. -/
def saturatedPool : Pool :=
  { idle := [], inUse := [9, 8, 7, 6, 5, 4, 3, 2, 1, 0], waiters := [100, 101],
    closed := false, created := 10 }

/-! ## Part 3: properties -/

theorem or_of_unset (e : Env) (name : String) (d : JSValue) (h : e name = none) :
    (e.read name).or d = d := by
  simp [Env.read, h, JSValue.or, JSValue.truthy]

theorem or_of_empty (e : Env) (name : String) (d : JSValue) (h : e name = some "") :
    (e.read name).or d = d := by
  simp [Env.read, h, JSValue.or, JSValue.truthy]

theorem or_of_nonempty (e : Env) (name s : String) (d : JSValue) (h : e name = some s)
    (hs : s ≠ "") : (e.read name).or d = .str s := by
  simp [Env.read, h, JSValue.or, JSValue.truthy, hs]

theorem or_ne_empty (a : JSValue) (s : String) (hs : s ≠ "") :
    a.or (.str s) ≠ .str "" := by
  cases a with
  | undefined =>
    simp [JSValue.or, JSValue.truthy, hs]
  | str t =>
    by_cases ht : t = ""
    · simp [JSValue.or, JSValue.truthy, ht, hs]
    · simp [JSValue.or, JSValue.truthy, ht]

/-- C1: in every environment the options take the defaults for unset variables
(host "localhost", database "academia_final", user "root"), and a variable set
to a non-empty string gives exactly that string. -/
theorem C1_defaults_for_unset (e : Env) :
    (e "DB_HOST" = none → (poolOptions e).host = .str "localhost") ∧
    (e "DB_NAME" = none → (poolOptions e).database = .str "academia_final") ∧
    (e "DB_USER" = none → (poolOptions e).user = .str "root") ∧
    (∀ s, e "DB_HOST" = some s → s ≠ "" → (poolOptions e).host = .str s) ∧
    (∀ s, e "DB_NAME" = some s → s ≠ "" → (poolOptions e).database = .str s) ∧
    (∀ s, e "DB_USER" = some s → s ≠ "" → (poolOptions e).user = .str s) :=
  ⟨fun h => or_of_unset e _ _ h, fun h => or_of_unset e _ _ h, fun h => or_of_unset e _ _ h,
   fun s h hs => or_of_nonempty e _ s _ h hs, fun s h hs => or_of_nonempty e _ s _ h hs,
   fun s h hs => or_of_nonempty e _ s _ h hs⟩

theorem C1_defaults_for_unset_witness :
    ((poolOptions emptyEnv).host = .str "localhost" ∧
      (poolOptions emptyEnv).database = .str "academia_final" ∧
      (poolOptions emptyEnv).user = .str "root") ∧
    ((poolOptions sampleEnv).host = .str "db.internal" ∧
      (poolOptions sampleEnv).database = .str "academia" ∧
      (poolOptions sampleEnv).user = .str "app") :=
  ⟨⟨(C1_defaults_for_unset emptyEnv).1 rfl,
    (C1_defaults_for_unset emptyEnv).2.1 rfl,
    (C1_defaults_for_unset emptyEnv).2.2.1 rfl⟩,
   ⟨(C1_defaults_for_unset sampleEnv).2.2.2.1 "db.internal" (by decide) (by decide),
    (C1_defaults_for_unset sampleEnv).2.2.2.2.1 "academia" (by decide) (by decide),
    (C1_defaults_for_unset sampleEnv).2.2.2.2.2 "app" (by decide) (by decide)⟩⟩

/-- C7: defaults are chosen by falsiness: for DB_HOST, DB_USER and DB_NAME a
variable set to the empty string gives the same field as the unset variable
("localhost", "root", "academia_final"), and in no environment is one of these
three fields the empty string. -/
theorem C7_empty_string_takes_default (e : Env) :
    ((poolOptions (e.update "DB_HOST" (some ""))).host = .str "localhost" ∧
      (poolOptions (e.update "DB_HOST" none)).host = .str "localhost") ∧
    ((poolOptions (e.update "DB_USER" (some ""))).user = .str "root" ∧
      (poolOptions (e.update "DB_USER" none)).user = .str "root") ∧
    ((poolOptions (e.update "DB_NAME" (some ""))).database = .str "academia_final" ∧
      (poolOptions (e.update "DB_NAME" none)).database = .str "academia_final") ∧
    (poolOptions e).host ≠ .str "" ∧
    (poolOptions e).user ≠ .str "" ∧
    (poolOptions e).database ≠ .str "" :=
  ⟨⟨or_of_empty (e.update "DB_HOST" (some "")) "DB_HOST" _ (by simp [Env.update]),
    or_of_unset (e.update "DB_HOST" none) "DB_HOST" _ (by simp [Env.update])⟩,
   ⟨or_of_empty (e.update "DB_USER" (some "")) "DB_USER" _ (by simp [Env.update]),
    or_of_unset (e.update "DB_USER" none) "DB_USER" _ (by simp [Env.update])⟩,
   ⟨or_of_empty (e.update "DB_NAME" (some "")) "DB_NAME" _ (by simp [Env.update]),
    or_of_unset (e.update "DB_NAME" none) "DB_NAME" _ (by simp [Env.update])⟩,
   or_ne_empty (e.read "DB_HOST") "localhost" (by decide),
   or_ne_empty (e.read "DB_USER") "root" (by decide),
   or_ne_empty (e.read "DB_NAME") "academia_final" (by decide)⟩

/-- C8: the password has no default: it is the value of DB_PASSWORD as found
(`undefined` when unset, the empty string when set to the empty string, any
other string unchanged), and setting or unsetting DB_HOST, DB_USER or DB_NAME
does not change it. -/
theorem C8_password_is_raw (e : Env) (s : String) (v : Option String) :
    (poolOptions e).password = e.read "DB_PASSWORD" ∧
    (poolOptions (e.update "DB_PASSWORD" none)).password = .undefined ∧
    (poolOptions (e.update "DB_PASSWORD" (some ""))).password = .str "" ∧
    (poolOptions (e.update "DB_PASSWORD" (some s))).password = .str s ∧
    (poolOptions (e.update "DB_HOST" v)).password = (poolOptions e).password ∧
    (poolOptions (e.update "DB_USER" v)).password = (poolOptions e).password ∧
    (poolOptions (e.update "DB_NAME" v)).password = (poolOptions e).password := by
  refine ⟨rfl, ?_, ?_, ?_, ?_, ?_, ?_⟩ <;>
    simp [poolOptions, Env.read, Env.update]

/-- The calls of the check when `getConnection()` rejects. -/
theorem startupCheck_rejected {κ ε : Type} (err : ε) (release : κ → Except ε Unit) :
    startupCheck (.rejected err) release =
      { events := [.getConnection, .error "Error connecting to the database:" err],
        state := .fulfilled () } := rfl

/-- The calls of the check while `getConnection()` stays pending. -/
theorem startupCheck_pending {κ ε : Type} (release : κ → Except ε Unit) :
    startupCheck (.pending : PromiseState κ ε) release =
      { events := [.getConnection], state := .pending } := rfl

/-- The calls of the check when `getConnection()` resolves and `release`
returns normally. -/
theorem startupCheck_released {κ ε : Type} (conn : κ) (release : κ → Except ε Unit)
    (h : release conn = .ok ()) :
    startupCheck (.fulfilled conn) release =
      { events := [.getConnection, .log "Connected to the MySQL database.", .release conn],
        state := .fulfilled () } := by
  simp [startupCheck, Chain.thenDo, Chain.catchDo, onConnected, Run.andThen, consoleLog,
    callRelease, h, settle]

/-- The calls of the check when `getConnection()` resolves and `release` throws. -/
theorem startupCheck_release_throws {κ ε : Type} (conn : κ) (release : κ → Except ε Unit)
    (err : ε) (h : release conn = .error err) :
    startupCheck (.fulfilled conn) release =
      { events := [.getConnection, .log "Connected to the MySQL database.", .release conn,
          .error "Error connecting to the database:" err],
        state := .fulfilled () } := by
  simp [startupCheck, Chain.thenDo, Chain.catchDo, onConnected, Run.andThen, consoleLog,
    callRelease, h, settle, onError, consoleError]

/-- The check when `getConnection()` resolves, by the completion of `release`. -/
theorem startupCheck_fulfilled_cases {κ ε : Type} (conn : κ) (release : κ → Except ε Unit) :
    (release conn = .ok () ∧ startupCheck (.fulfilled conn) release =
      { events := [.getConnection, .log "Connected to the MySQL database.", .release conn],
        state := .fulfilled () }) ∨
    (∃ err, release conn = .error err ∧ startupCheck (.fulfilled conn) release =
      { events := [.getConnection, .log "Connected to the MySQL database.", .release conn,
          .error "Error connecting to the database:" err],
        state := .fulfilled () }) := by
  cases h : release conn with
  | ok u => exact Or.inl ⟨rfl, startupCheck_released conn release h⟩
  | error err => exact Or.inr ⟨err, rfl, startupCheck_release_throws conn release err h⟩

/-- C2: when `getConnection()` rejects with `err`, loading the module logs
exactly one error message ("Error connecting to the database:" with `err`), logs
no success message, ends the chain fulfilled (nothing is rethrown), and exports
the same pool as a load whose check succeeds. -/
theorem C2_failure_logged_not_fatal {P κ ε : Type} (dotenv : Env → Env)
    (createPool : PoolOptions → P) (release : κ → Except ε Unit) (processEnv : Env)
    (err : ε) (conn : κ) :
    (loadModule dotenv createPool (.rejected err) release processEnv).events =
      [.getConnection, .error "Error connecting to the database:" err] ∧
    loggedErrors (loadModule dotenv createPool (.rejected err) release processEnv).events =
      [("Error connecting to the database:", err)] ∧
    loggedMessages (loadModule dotenv createPool (.rejected err) release processEnv).events
      = [] ∧
    (loadModule dotenv createPool (.rejected err) release processEnv).chain
      = .fulfilled () ∧
    (loadModule dotenv createPool (.rejected err) release processEnv).exports =
      (loadModule dotenv createPool (.fulfilled conn) (fun _ => (.ok () : Except ε Unit))
        processEnv).exports ∧
    (loadModule dotenv createPool (.rejected err) release processEnv).exports =
      createPool (poolOptions (dotenv processEnv)) :=
  ⟨rfl, rfl, rfl, rfl, rfl, rfl⟩

/-- C3: whatever the environment and however the check ends, loading the
module calls `getConnection` exactly once; when the acquisition resolves and
`release` returns normally, the success message "Connected to the MySQL
database." is logged exactly once and no error message is logged. -/
theorem C3_one_time_check {P κ ε : Type} (dotenv : Env → Env)
    (createPool : PoolOptions → P) (outcome : PromiseState κ ε)
    (release : κ → Except ε Unit) (processEnv : Env) :
    getConnectionCalls (loadModule dotenv createPool outcome release processEnv).events = 1 ∧
    ∀ conn, outcome = .fulfilled conn → release conn = .ok () →
      loggedMessages (loadModule dotenv createPool outcome release processEnv).events =
        ["Connected to the MySQL database."] ∧
      loggedErrors (loadModule dotenv createPool outcome release processEnv).events = [] := by
  constructor
  · cases outcome with
    | pending => rfl
    | rejected err => rfl
    | fulfilled conn =>
      rcases startupCheck_fulfilled_cases conn release with ⟨_, h⟩ | ⟨err, _, h⟩ <;>
        simp [loadModule, h, getConnectionCalls]
  · intro conn ho hr
    subst ho
    simp [loadModule, startupCheck_released conn release hr, loggedMessages, loggedErrors]

theorem C3_one_time_check_witness :
    loggedMessages (loadModule (P := PoolOptions) (κ := Nat) (ε := String) id id
        (.fulfilled 7) (fun _ => .ok ()) emptyEnv).events =
        ["Connected to the MySQL database."] ∧
      loggedErrors (loadModule (P := PoolOptions) (κ := Nat) (ε := String) id id
        (.fulfilled 7) (fun _ => .ok ()) emptyEnv).events = [] :=
  (C3_one_time_check id id (.fulfilled 7) (fun _ => .ok ()) emptyEnv).2 7 rfl rfl

/-- C9: the chain of the startup check never ends rejected, however
`getConnection()` settles and however `release` completes. A rejection `err` is
logged under "Error connecting to the database:". When `getConnection()`
resolves and `release` throws `err`, the success message is logged first, then
`release` is called, then `err` is logged under the same error message. -/
theorem C9_chain_never_rejected {P κ ε : Type} (dotenv : Env → Env)
    (createPool : PoolOptions → P) (outcome : PromiseState κ ε)
    (release : κ → Except ε Unit) (processEnv : Env) :
    (∀ err, (loadModule dotenv createPool outcome release processEnv).chain ≠ .rejected err) ∧
    (∀ err, outcome = .rejected err →
      loggedErrors (loadModule dotenv createPool outcome release processEnv).events =
        [("Error connecting to the database:", err)]) ∧
    (∀ conn err, outcome = .fulfilled conn → release conn = .error err →
      (loadModule dotenv createPool outcome release processEnv).events =
        [.getConnection, .log "Connected to the MySQL database.", .release conn,
          .error "Error connecting to the database:" err] ∧
      loggedMessages (loadModule dotenv createPool outcome release processEnv).events =
        ["Connected to the MySQL database."] ∧
      loggedErrors (loadModule dotenv createPool outcome release processEnv).events =
        [("Error connecting to the database:", err)] ∧
      (loadModule dotenv createPool outcome release processEnv).chain = .fulfilled ()) := by
  refine ⟨?_, ?_, ?_⟩
  · intro err
    cases outcome with
    | pending => simp [loadModule, startupCheck_pending]
    | rejected e => simp [loadModule, startupCheck_rejected]
    | fulfilled conn =>
      rcases startupCheck_fulfilled_cases conn release with ⟨_, h⟩ | ⟨e, _, h⟩ <;>
        simp [loadModule, h]
  · intro err ho
    subst ho
    rfl
  · intro conn err ho hr
    subst ho
    simp [loadModule, startupCheck_release_throws conn release err hr, loggedMessages,
      loggedErrors]

theorem C9_chain_never_rejected_witness :
    loggedErrors (loadModule (P := PoolOptions) (κ := Nat) (ε := String) id id
        (.rejected "ECONNREFUSED") (fun _ => .ok ()) emptyEnv).events =
        [("Error connecting to the database:", "ECONNREFUSED")] ∧
    ((loadModule (P := PoolOptions) (κ := Nat) (ε := String) id id
        (.fulfilled 7) (fun _ => .error "release failed") emptyEnv).events =
        [.getConnection, .log "Connected to the MySQL database.", .release 7,
          .error "Error connecting to the database:" "release failed"] ∧
      loggedMessages (loadModule (P := PoolOptions) (κ := Nat) (ε := String) id id
        (.fulfilled 7) (fun _ => .error "release failed") emptyEnv).events =
        ["Connected to the MySQL database."] ∧
      loggedErrors (loadModule (P := PoolOptions) (κ := Nat) (ε := String) id id
        (.fulfilled 7) (fun _ => .error "release failed") emptyEnv).events =
        [("Error connecting to the database:", "release failed")] ∧
      (loadModule (P := PoolOptions) (κ := Nat) (ε := String) id id
        (.fulfilled 7) (fun _ => .error "release failed") emptyEnv).chain = .fulfilled ()) :=
  ⟨(C9_chain_never_rejected id id (.rejected "ECONNREFUSED") (fun _ => .ok ())
      emptyEnv).2.1 "ECONNREFUSED" rfl,
   (C9_chain_never_rejected id id (.fulfilled 7) (fun _ => .error "release failed")
      emptyEnv).2.2 7 "release failed" rfl rfl⟩

/-- Taking an idle connection leaves fewer idle connections. -/
theorem Pool.takeIdle_length (probe : Nat → Bool) (l : List Nat) (c : Nat) (rest : List Nat)
    (h : Pool.takeIdle probe l = some (c, rest)) : rest.length + 1 ≤ l.length := by
  induction l with
  | nil => simp [Pool.takeIdle] at h
  | cons a t ih =>
    unfold Pool.takeIdle at h
    split at h
    · simp only [Option.some.injEq, Prod.mk.injEq] at h
      obtain ⟨_, rfl⟩ := h
      simp
    · have := ih h
      simp only [List.length_cons]
      omega

/-- One `acquire` keeps the number of connections within the maximum. -/
theorem Pool.acquire_bound (cfg : PoolConfig) (p : Pool) (w : Nat) (probe : Nat → Bool)
    (connectOk : Bool) (h : p.idle.length + p.inUse.length ≤ cfg.maxConnections) :
    (p.acquire cfg w probe connectOk).2.idle.length +
      (p.acquire cfg w probe connectOk).2.inUse.length ≤ cfg.maxConnections := by
  unfold Pool.acquire
  split
  · exact h
  · split
    · rename_i c rest hc
      have := Pool.takeIdle_length probe p.idle c rest hc
      simp only [List.length_cons]
      omega
    · simp only [List.length_nil, Nat.zero_add]
      split
      · split
        · simp only [List.length_cons, List.length_nil]
          omega
        · simp only [List.length_nil]
          omega
      · split <;> simp only [List.length_nil] <;> omega

/-- One `release` keeps the number of connections within the maximum. -/
theorem Pool.release_bound (cfg : PoolConfig) (p : Pool) (c : Nat)
    (valid probeOk connectOk : Bool)
    (h : p.idle.length + p.inUse.length ≤ cfg.maxConnections) :
    (p.release c valid probeOk connectOk).2.idle.length +
      (p.release c valid probeOk connectOk).2.inUse.length ≤ cfg.maxConnections := by
  unfold Pool.release
  split
  · rename_i hc
    have hlen := List.length_erase_of_mem hc
    have hpos : 0 < p.inUse.length := List.length_pos_of_mem hc
    split
    · simp only [hlen]
      omega
    · split
      · split
        · simp only [hlen, List.length_append, List.length_cons, List.length_nil]
          omega
        · simp only [hlen]
          omega
      · split
        · simp only [hlen, List.length_cons]
          omega
        · split
          · simp only [hlen, List.length_cons]
            omega
          · simp only [hlen]
            omega
  · exact h

/-- Every operation keeps the number of connections within the maximum. -/
theorem Pool.step_bound (cfg : PoolConfig) (p : Pool) (op : PoolOp)
    (h : p.idle.length + p.inUse.length ≤ cfg.maxConnections) :
    (p.step cfg op).idle.length + (p.step cfg op).inUse.length ≤ cfg.maxConnections := by
  cases op with
  | acquire w probe connectOk => exact Pool.acquire_bound cfg p w probe connectOk h
  | release c valid probeOk connectOk =>
    exact Pool.release_bound cfg p c valid probeOk connectOk h
  | expire w => exact h
  | shutdown =>
    simp only [Pool.step, Pool.shutdown, List.length_nil, Nat.zero_add]
    omega

/-- Every sequence of operations keeps the number of connections within the
maximum. -/
theorem Pool.run_bound (cfg : PoolConfig) (ops : List PoolOp) (p : Pool)
    (h : p.idle.length + p.inUse.length ≤ cfg.maxConnections) :
    (p.run cfg ops).idle.length + (p.run cfg ops).inUse.length ≤ cfg.maxConnections := by
  induction ops generalizing p with
  | nil => exact h
  | cons op rest ih =>
    exact ih (p.step cfg op) (Pool.step_bound cfg p op h)

/-- Releasing the connection at the head of the in-use list of a pool without
waiters succeeds and leaves the rest of the list in use. -/
theorem Pool.release_head (q : Pool) (c : Nat) (l : List Nat) (valid probeOk connectOk : Bool)
    (hu : q.inUse = c :: l) (hw : q.waiters = []) :
    (q.release c valid probeOk connectOk).1 = .ok () ∧
      (q.release c valid probeOk connectOk).2.inUse = l := by
  unfold Pool.release
  simp only [hu, hw, List.mem_cons, true_or, if_true, List.erase_cons_head]
  split
  · exact ⟨rfl, rfl⟩
  · split <;> exact ⟨rfl, rfl⟩

/-- The startup check run against a pool without waiters leaves the in-use
connections as they were. -/
theorem Pool.afterStartupCheck_inUse (cfg : PoolConfig) (p : Pool) (w : Nat)
    (probe : Nat → Bool) (connectOk valid probeOk connectOk2 : Bool)
    (hw : p.waiters = []) :
    (p.afterStartupCheck cfg w probe connectOk valid probeOk connectOk2).inUse = p.inUse := by
  have key : ∀ (q : Pool) (c : Nat), q.inUse = c :: p.inUse → q.waiters = [] →
      ((releasedConns (startupCheck (PromiseState.fulfilled c)
          (fun c => (q.release c valid probeOk connectOk2).1)).events).foldl
        (fun q c => (q.release c valid probeOk connectOk2).2) q).inUse = p.inUse := by
    intro q c hu hq
    have hr := Pool.release_head q c p.inUse valid probeOk connectOk2 hu hq
    rw [startupCheck_released c _ hr.1]
    simpa [releasedConns] using hr.2
  unfold Pool.afterStartupCheck Pool.acquire
  split
  · rfl
  · split
    · exact key _ _ rfl hw
    · simp only [List.length_nil, Nat.zero_add]
      split
      · split
        · exact key _ _ rfl hw
        · rfl
      · split <;> rfl

/-- C4: when `getConnection()` resolves with `conn`, the check calls `release`
exactly once, on `conn`; when it rejects, `release` is never called. Run against
the newly created pool of the specification, the check leaves the in-use count as
it was before; the same holds from every pool state without waiters, where the
in-use connections themselves are left as they were. -/
theorem C4_release_exactly_once {P κ ε : Type} (dotenv : Env → Env)
    (createPool : PoolOptions → P) (release : κ → Except ε Unit) (processEnv : Env) :
    (∀ conn, releasedConns
      (loadModule dotenv createPool (.fulfilled conn) release processEnv).events = [conn]) ∧
    (∀ err, releasedConns
      (loadModule dotenv createPool (.rejected err) release processEnv).events = []) ∧
    (∀ (w : Nat) (probe : Nat → Bool) (connectOk valid probeOk connectOk2 : Bool),
      (Pool.create.afterStartupCheck (PoolConfig.ofOptions (poolOptions (dotenv processEnv)))
        w probe connectOk valid probeOk connectOk2).inUse.length = Pool.create.inUse.length) ∧
    (∀ (cfg : PoolConfig) (p : Pool) (w : Nat) (probe : Nat → Bool)
      (connectOk valid probeOk connectOk2 : Bool), p.waiters = [] →
      (p.afterStartupCheck cfg w probe connectOk valid probeOk connectOk2).inUse = p.inUse ∧
      (p.afterStartupCheck cfg w probe connectOk valid probeOk connectOk2).inUse.length =
        p.inUse.length) := by
  refine ⟨?_, ?_, ?_, ?_⟩
  · intro conn
    rcases startupCheck_fulfilled_cases conn release with ⟨_, h⟩ | ⟨err, _, h⟩ <;>
      simp [loadModule, h, releasedConns]
  · intro err
    rfl
  · intro w probe connectOk valid probeOk connectOk2
    rw [Pool.afterStartupCheck_inUse _ Pool.create w probe connectOk valid probeOk connectOk2
      rfl]
  · intro cfg p w probe connectOk valid probeOk connectOk2 hw
    have h := Pool.afterStartupCheck_inUse cfg p w probe connectOk valid probeOk connectOk2 hw
    exact ⟨h, by rw [h]⟩

theorem C4_release_exactly_once_witness :
    (Pool.create.afterStartupCheck (PoolConfig.ofOptions (poolOptions emptyEnv)) 0
        (fun _ => true) true true true true).inUse = Pool.create.inUse ∧
      (Pool.create.afterStartupCheck (PoolConfig.ofOptions (poolOptions emptyEnv)) 0
        (fun _ => true) true true true true).inUse.length = Pool.create.inUse.length :=
  (C4_release_exactly_once (P := PoolOptions) (κ := Nat) (ε := PoolError) id id
    (fun _ => .ok ()) emptyEnv).2.2.2 (PoolConfig.ofOptions (poolOptions emptyEnv))
    Pool.create 0 (fun _ => true) true true true true rfl

/-- C5: in every environment the limits are the constants `connectionLimit` 10,
`queueLimit` 0 and `waitForConnections` true. With these limits the pool of the
specification never fails an `acquire` with `PoolExhausted`, and an `acquire` on
an open pool with no idle connection and all ten connections in use puts the
caller at the end of the waiter queue. -/
theorem C5_limits_are_constants (e : Env) (p : Pool) (w : Nat) (probe : Nat → Bool)
    (connectOk : Bool) :
    (poolOptions e).connectionLimit = 10 ∧
    (poolOptions e).queueLimit = 0 ∧
    (poolOptions e).waitForConnections = true ∧
    (p.acquire (PoolConfig.ofOptions (poolOptions e)) w probe connectOk).1
      ≠ .failed .poolExhausted ∧
    (p.closed = false → p.idle = [] → p.inUse.length = (poolOptions e).connectionLimit →
      p.acquire (PoolConfig.ofOptions (poolOptions e)) w probe connectOk =
        (.queued, { p with waiters := p.waiters ++ [w] })) := by
  refine ⟨rfl, rfl, rfl, ?_, ?_⟩
  · unfold Pool.acquire
    split
    · simp
    · split
      · simp
      · simp only [PoolConfig.ofOptions, poolOptions]
        split_ifs <;> simp_all
  · intro hc hi hu
    have hu10 : p.inUse.length = 10 := hu
    cases p with
    | mk idle inUse waiters closed created =>
      simp only at hc hi hu10
      subst hc hi
      simp [Pool.acquire, Pool.takeIdle, PoolConfig.ofOptions, poolOptions, hu10]

theorem C5_limits_are_constants_witness :
    saturatedPool.acquire (PoolConfig.ofOptions (poolOptions emptyEnv)) 102
        (fun _ => true) true =
      (.queued, { saturatedPool with waiters := saturatedPool.waiters ++ [102] }) :=
  (C5_limits_are_constants emptyEnv saturatedPool 102 (fun _ => true) true).2.2.2.2
    rfl rfl rfl

/-- C6: for every sequence of operations on the pool of the specification
created with the limits of `db.js` (acquire and release, and also timeout expiry
and shutdown), the number of idle connections plus the number of in-use
connections is at most 10 after every operation, that is after the first `n`
operations of the sequence for every `n`. -/
theorem C6_idle_plus_inUse_le_max (e : Env) (ops : List PoolOp) (n : Nat) :
    (Pool.create.run (PoolConfig.ofOptions (poolOptions e)) (ops.take n)).idle.length +
      (Pool.create.run (PoolConfig.ofOptions (poolOptions e)) (ops.take n)).inUse.length
      ≤ 10 :=
  Pool.run_bound (PoolConfig.ofOptions (poolOptions e)) (ops.take n) Pool.create
    (by simp [Pool.create, PoolConfig.ofOptions, poolOptions])

end DbJs
